/-
Verification of the doakes internal telemetry server.

Shallow embedding of the readiness-gating and lifecycle code:
the health check handler (package healthcheck), the health-check
waiter and the telemetry server lifecycle (package server), the
internal HTTP listener wrapper (package http), the metrics provider
cleanup (package metrics), and the address-parsing helpers
(net.SplitHostPort, strconv.Atoi) used by GetRunningPort.

Go maps are embedded as association lists whose update replaces the
entry for an existing key in place; Go map iteration visits the list
in its representation order (Go leaves the order unspecified; every
theorem below is stated so that it holds for the embedded order and
matches order-agnostic wording of the code's contract). Effectful
methods are embedded as explicit state transformers that also return
the list of externally visible effects they perform, so ordering
claims become claims about concrete effect lists.
-/
import Mathlib

namespace Doakes

/-- Go error values; only their presence and text matter here. -/
abbrev Err := String

/-! ## Package healthcheck -/

/-- CheckFunction from healthcheck: a zero-argument fallible probe.
none = healthy, some e = unhealthy with error e. -/
abbrev CheckFunction := Unit → Option Err

/-- The observable part of an HTTP response written by writeResponse. -/
structure Response where
  statusCode : Nat
  body : String
deriving DecidableEq, Repr

/-- Handler.writeResponse: writes the status code and the body. -/
def writeResponse (statusCode : Nat) (message : String) : Response :=
  { statusCode := statusCode, body := message }

/-- healthcheck.Handler: service name, the checks map, the enabled flag.
The mutexes only serialize access; the sequential embedding keeps the
fields themselves. -/
structure Handler where
  serviceName : String
  checks : List (String × CheckFunction)
  enabled : Bool

/-- healthcheck.NewHandler: empty checks map, enabled not set (false). -/
def NewHandler (serviceName : String) : Handler :=
  { serviceName := serviceName, checks := [], enabled := false }

/-- Go map store m[name] = fn on the association-list embedding:
overwrites the entry for an existing key in place, appends otherwise. -/
def mapStore (m : List (String × CheckFunction)) (name : String)
    (fn : CheckFunction) : List (String × CheckFunction) :=
  if m.any (fun p => p.1 == name) then
    m.map (fun p => if p.1 == name then (p.1, fn) else p)
  else
    m ++ [(name, fn)]

/-- Handler.RegisterCheck: h.checks[name] = checkFn (silent overwrite,
no error return). -/
def Handler.RegisterCheck (h : Handler) (name : String)
    (checkFn : CheckFunction) : Handler :=
  { h with checks := mapStore h.checks name checkFn }

/-- Handler.Enable: h.enabled = true. -/
def Handler.Enable (h : Handler) : Handler :=
  { h with enabled := true }

/-- Handler.IsEnabled: returns the enabled flag. -/
def Handler.IsEnabled (h : Handler) : Bool :=
  h.enabled

/-- Handler.runAllChecks: iterate the checks; return the first probe
error encountered, nil if all pass (including zero checks). -/
def runAllChecks : List (String × CheckFunction) → Option Err
  | [] => none
  | (_, checkFn) :: rest =>
    match checkFn () with
    | some e => some e
    | none => runAllChecks rest

/-- runAllChecks instrumented with the list of check names whose probe
was actually invoked, in invocation order. -/
def runAllChecksTrace : List (String × CheckFunction) → Option Err × List String
  | [] => (none, [])
  | (checkName, checkFn) :: rest =>
    match checkFn () with
    | some e => (some e, [checkName])
    | none =>
      let r := runAllChecksTrace rest
      (r.1, checkName :: r.2)

/-- Handler.ServeHTTP: 503 "not enabled" when the gate is off,
503 "unhealthy" when runAllChecks fails, 200 "ok" otherwise. -/
def Handler.ServeHTTP (h : Handler) : Response :=
  if !h.IsEnabled then writeResponse 503 "not enabled"
  else
    match runAllChecks h.checks with
    | some _ => writeResponse 503 "unhealthy"
    | none => writeResponse 200 "ok"

/-- ServeHTTP instrumented with the names of the probes invoked. -/
def Handler.ServeHTTPTrace (h : Handler) : Response × List String :=
  if !h.IsEnabled then (writeResponse 503 "not enabled", [])
  else
    match runAllChecksTrace h.checks with
    | (some _, invoked) => (writeResponse 503 "unhealthy", invoked)
    | (none, invoked) => (writeResponse 200 "ok", invoked)

/-- The routes registered by http.registerAllRoutes (method, path,
target handler). -/
inductive RouteTarget
  | indexRoute
  | healthCheckRoute
  | metricsRoute
  | pprofRoute
deriving DecidableEq, Repr

/-- registerAllRoutes: index, health check, metrics, profiling. -/
def routes : List (String × String × RouteTarget) :=
  [ ("GET", "/", RouteTarget.indexRoute),
    ("GET", "/_hc", RouteTarget.healthCheckRoute),
    ("GET", "/metrics", RouteTarget.metricsRoute),
    ("GET", "/debug/pprof/", RouteTarget.pprofRoute) ]

/-- The public mutating surface of the Handler (IsEnabled is a pure
read and ServeHTTP does not write; both are included for coverage). -/
inductive HandlerOp
  | register (name : String) (fn : CheckFunction)
  | enable
  | isEnabledQuery
  | serve

/-- Apply one public Handler operation to the state. -/
def applyOp (h : Handler) : HandlerOp → Handler
  | .register name fn => h.RegisterCheck name fn
  | .enable => h.Enable
  | .isEnabledQuery => h
  | .serve => h

/-- Apply a sequence of public Handler operations, left to right. -/
def applyOps (h : Handler) (ops : List HandlerOp) : Handler :=
  ops.foldl applyOp h

/-- Register the same name repeatedly with the given probes, in order. -/
def registerMany (h : Handler) (name : String) (fns : List CheckFunction) : Handler :=
  fns.foldl (fun acc fn => acc.RegisterCheck name fn) h

/-! ## Package server: healthCheckWaiter -/

/-- A structured log record: message plus numeric attributes
(durations are carried as their nanosecond count). -/
structure LogRecord where
  message : String
  attrs : List (String × Nat)
deriving DecidableEq, Repr

/-- One iteration of waitForHealthCheckEnabled's select:
either the stop channel fires, or the ticker fires and the tick body
observes the server's running flag, the gate's enabled flag, and the
current time (nanoseconds). -/
inductive WaiterEvent
  | stopSignal
  | tick (running enabled : Bool) (now : Nat)
deriving DecidableEq, Repr

/-- How the waitForHealthCheckEnabled loop ends. -/
inductive LoopOutcome
  | stoppedBySignal
  | stoppedNotRunning
  | satisfied
  | escalated (errorLog : LogRecord) (escalationMsg : String)
  | outOfEvents
deriving DecidableEq, Repr

/-- The message logged and used for the fatal escalation. -/
def timeoutMsg : String :=
  "Health check not enabled within timeout - please call EnableHealthCheck()"

/-- waitForHealthCheckEnabled's loop body over a finite schedule of
events. Source order inside a tick: stop channel, IsRunning,
IsHealthCheckEnabled, time.Now().After(deadline) (strict >), else
continue to the next tick. Escalation records the slog.Error call
(message plus the "timeout" attribute carrying w.timeout) and the
message passed to the fatal abort. -/
def waitLoop (timeout deadline : Nat) : List WaiterEvent → LoopOutcome
  | [] => .outOfEvents
  | .stopSignal :: _ => .stoppedBySignal
  | .tick running enabled now :: rest =>
    if !running then .stoppedNotRunning
    else if enabled then .satisfied
    else if deadline < now then
      .escalated { message := timeoutMsg, attrs := [("timeout", timeout)] } timeoutMsg
    else waitLoop timeout deadline rest

/-- healthCheckWaiter.waitForHealthCheckEnabled: computes
deadline = time.Now() + w.timeout, then runs the polling loop. -/
def waitForHealthCheckEnabled (startTime timeout : Nat)
    (events : List WaiterEvent) : LoopOutcome :=
  waitLoop timeout (startTime + timeout) events

/-- The stop-relevant state of a healthCheckWaiter: the stopped flag,
whether the stop channel has been closed, and how many times close
was executed on it. -/
structure WaiterState where
  stopped : Bool
  chanClosed : Bool
  closeCount : Nat
deriving DecidableEq, Repr

/-- newHealthCheckWaiter: fresh open stop channel, not stopped. -/
def newWaiterState : WaiterState :=
  { stopped := false, chanClosed := false, closeCount := 0 }

/-- Go close(ch): panics (Except.error) when the channel is already
closed, otherwise closes it. -/
def closeChan (s : WaiterState) : Except Err WaiterState :=
  if s.chanClosed then .error "close of closed channel"
  else .ok { s with chanClosed := true, closeCount := s.closeCount + 1 }

/-- healthCheckWaiter.stop (the mutex serializes the calls): if
already stopped return; otherwise set stopped and close the channel. -/
def WaiterState.stop (s : WaiterState) : Except Err WaiterState :=
  if s.stopped then .ok s
  else closeChan { s with stopped := true }

/-- Call healthCheckWaiter.stop n times in sequence, propagating any
panic. -/
def stopN : Nat → WaiterState → Except Err WaiterState
  | 0, s => .ok s
  | n + 1, s =>
    match s.stop with
    | .error e => .error e
    | .ok s1 => stopN n s1

/-! ## Package server: TelemetryServer lifecycle -/

/-- Externally visible effects of the lifecycle methods. -/
inductive ServerEffect
  | launchWatcher
  | goServeStart
  | stopWatcher
  | shutdownListener
  | cleanupMetrics
deriving DecidableEq, Repr

/-- The lifecycle state guarded by TelemetryServer's mutex. -/
structure TelemetryServer where
  running : Bool
deriving DecidableEq, Repr

/-- TelemetryServer.StartWithAddress: if already running, log and
return nil with no further action; otherwise set running, start the
health check watcher, launch the goroutine that runs
httpServer.Start, and return nil. -/
def TelemetryServer.StartWithAddress (s : TelemetryServer) :
    TelemetryServer × List ServerEffect × Option Err :=
  if s.running then (s, [], none)
  else ({ running := true },
        [ServerEffect.launchWatcher, ServerEffect.goServeStart], none)

/-- TelemetryServer.Stop: if not running, return nil with no action;
otherwise clear running, stop the watcher, shut down the HTTP server
(the environment supplies its result), return the shutdown error if
any, else run metricsProvider.Cleanup and return nil. -/
def TelemetryServer.Stop (s : TelemetryServer) (shutdownErr : Option Err) :
    TelemetryServer × List ServerEffect × Option Err :=
  if !s.running then (s, [], none)
  else
    match shutdownErr with
    | some e =>
        ({ running := false },
         [ServerEffect.stopWatcher, ServerEffect.shutdownListener], some e)
    | none =>
        ({ running := false },
         [ServerEffect.stopWatcher, ServerEffect.shutdownListener,
          ServerEffect.cleanupMetrics], none)

/-! ## Package metrics: Provider.Cleanup -/

/-- The cleanup functions installed by metrics.NewProvider. -/
inductive MetricsCleanupStep
  | exporterShutdown
  | meterProviderShutdown
deriving DecidableEq, Repr

/-- Provider.cleanupFuncs as built in NewProvider: exporter shutdown,
then meter provider shutdown. -/
def cleanupFuncs : List MetricsCleanupStep :=
  [MetricsCleanupStep.exporterShutdown, MetricsCleanupStep.meterProviderShutdown]

/-- Provider.Cleanup: runs every installed cleanup function in order. -/
def ProviderCleanup : List MetricsCleanupStep :=
  cleanupFuncs

/-! ## Package http: the listener wrapper (source quoted in README) -/

/-- http.Server: the configured address and the listener's resolved
address once net.Listen succeeded. -/
structure HTTPServer where
  addr : String
  listenerAddr : Option String
deriving DecidableEq, Repr

/-- http.NewServer: no address configured, no listener yet. -/
def NewServer : HTTPServer :=
  { addr := "", listenerAddr := none }

/-- http.Server.ActualAddress: the listener's address once bound,
empty string before. -/
def HTTPServer.ActualAddress (s : HTTPServer) : String :=
  match s.listenerAddr with
  | none => ""
  | some a => a

/-- The externally observable events of one execution of
http.Server.Start. -/
inductive ServeEvent
  | bindFailed
  | bound
  | serveEnter
  | serveExit
  | startReturned
deriving DecidableEq, Repr

/-- http.Server.Start(address): net.Listen (the environment supplies
its result: none = bind error, some resolved = the OS-resolved bound
address), record the listener and its address, then run
httpServer.Serve(listener) to completion and only then return.
The returned trace is the order of the observable events. -/
def HTTPServer.StartRun (s : HTTPServer) (listenResult : Option String) :
    HTTPServer × List ServeEvent :=
  match listenResult with
  | none => (s, [ServeEvent.bindFailed, ServeEvent.startReturned])
  | some resolved =>
      ({ addr := resolved, listenerAddr := some resolved },
       [ServeEvent.bound, ServeEvent.serveEnter, ServeEvent.serveExit,
        ServeEvent.startReturned])

/-- Modelled from the spec: the claim's non-blocking contract for the
listener's Start call, "it returns once the socket is bound and the
serve loop is launched" — on an event trace, Start's return occurs
and the serve loop has not already run to completion before it. -/
def returnsBeforeServeExit (events : List ServeEvent) : Bool :=
  match events.findIdx? (· == ServeEvent.startReturned),
        events.findIdx? (· == ServeEvent.serveExit) with
  | some r, some e => r < e
  | some _, none => true
  | _, _ => false

/-! ## net.SplitHostPort and strconv.Atoi (the Go standard library
functions GetRunningPort relies on) -/

/-- Index of the last occurrence of a character (net's last helper). -/
def lastIdxOf (cs : List Char) (c : Char) : Option Nat :=
  match cs.reverse.findIdx? (· == c) with
  | none => none
  | some j => some (cs.length - 1 - j)

/-- net.SplitHostPort: splits host:port, with the port after the last
colon and optional brackets around a literal IPv6 host. Error values
carry the reason text (bracket reasons shortened, apostrophe-free). -/
def SplitHostPort (hostPort : String) : Except Err (String × String) :=
  let cs := hostPort.toList
  match lastIdxOf cs ':' with
  | none => .error "missing port in address"
  | some i =>
    if cs.head? = some '[' then
      match cs.findIdx? (· == ']') with
      | none => .error "missing bracket in address"
      | some endIdx =>
        if endIdx + 1 = cs.length then .error "missing port in address"
        else if endIdx + 1 = i then
          if (cs.drop 1).contains '[' then .error "unexpected bracket in address"
          else if (cs.drop (endIdx + 1)).contains ']' then
            .error "unexpected bracket in address"
          else .ok (String.mk ((cs.take endIdx).drop 1), String.mk (cs.drop (i + 1)))
        else if cs.get? (endIdx + 1) = some ':' then
          .error "too many colons in address"
        else .error "missing port in address"
    else
      let host := cs.take i
      if host.contains ':' then .error "too many colons in address"
      else if cs.contains '[' then .error "unexpected bracket in address"
      else if cs.contains ']' then .error "unexpected bracket in address"
      else .ok (String.mk host, String.mk (cs.drop (i + 1)))

/-- strconv.Atoi: optional sign, then decimal digits; syntax error on
an empty number or a non-digit; range error outside the 64-bit int
range (Go also returns a clamped value with the range error, but every
caller here only inspects err != nil). -/
def Atoi (s : String) : Except Err Int :=
  let cs := s.toList
  let signDigits : Bool × List Char :=
    match cs with
    | '-' :: rest => (true, rest)
    | '+' :: rest => (false, rest)
    | _ => (false, cs)
  let neg := signDigits.1
  let digits := signDigits.2
  if digits.isEmpty then .error "invalid syntax"
  else if digits.all (fun c => c.isDigit) then
    let n : Nat := digits.foldl (fun acc c => acc * 10 + (c.toNat - '0'.toNat)) 0
    let v : Int := if neg then -(n : Int) else (n : Int)
    if v < -(2 ^ 63 : Int) then .error "value out of range"
    else if (2 ^ 63 : Int) - 1 < v then .error "value out of range"
    else .ok v
  else .error "invalid syntax"

/-- TelemetryServer.GetRunningPort, as a function of the actual bound
address s.httpServer.ActualAddress(): 0 on an empty address, on a
split failure, or on a port that does not parse; the parsed port
otherwise. -/
def GetRunningPort (addr : String) : Int :=
  if addr = "" then 0
  else
    match SplitHostPort addr with
    | .error _ => 0
    | .ok (_, port) =>
      match Atoi port with
      | .error _ => 0
      | .ok portNum => portNum

/-- GetRunningPort applied to the listener wrapper's actual address. -/
def GetRunningPortOf (s : HTTPServer) : Int :=
  GetRunningPort s.ActualAddress

/-! ## Helper lemmas -/

theorem runAllChecksTrace_fst (cs : List (String × CheckFunction)) :
    (runAllChecksTrace cs).1 = runAllChecks cs := by
  induction cs with
  | nil => rfl
  | cons p rest ih =>
    obtain ⟨nm, g⟩ := p
    simp only [runAllChecksTrace, runAllChecks]
    cases hg : g () with
    | some e => rfl
    | none => simpa using ih

theorem runAllChecks_of_all_none (cs : List (String × CheckFunction))
    (hall : ∀ p ∈ cs, p.2 () = none) : runAllChecks cs = none := by
  induction cs with
  | nil => rfl
  | cons p rest ih =>
    obtain ⟨nm, g⟩ := p
    have h1 : g () = none := hall (nm, g) (List.mem_cons_self _ _)
    simp only [runAllChecks, h1]
    exact ih fun q hq => hall q (List.mem_cons_of_mem _ hq)

theorem runAllChecksTrace_firstFail (pre : List (String × CheckFunction))
    (nm : String) (g : CheckFunction) (post : List (String × CheckFunction))
    (hpre : ∀ p ∈ pre, p.2 () = none) (hg : g () ≠ none) :
    runAllChecksTrace (pre ++ (nm, g) :: post) = (g (), pre.map Prod.fst ++ [nm]) := by
  induction pre with
  | nil =>
    obtain ⟨e, he⟩ := Option.ne_none_iff_exists'.mp hg
    simp only [List.nil_append, runAllChecksTrace, he, List.map_nil]
  | cons p rest ih =>
    obtain ⟨nm', g'⟩ := p
    have h1 : g' () = none := hpre (nm', g') (List.mem_cons_self _ _)
    have h2 := ih fun q hq => hpre q (List.mem_cons_of_mem _ hq)
    simp only [List.cons_append, runAllChecksTrace, h1, List.map_cons,
      List.append_eq, h2]

theorem lookup_map_replace (name : String) (fn : CheckFunction)
    (m : List (String × CheckFunction))
    (hany : m.any (fun p => p.1 == name) = true) :
    List.lookup name (m.map (fun p => if p.1 == name then (p.1, fn) else p))
      = some fn := by
  induction m with
  | nil => simp at hany
  | cons p rest ih =>
    obtain ⟨k, v⟩ := p
    cases hk : (k == name) with
    | true =>
      have hkeq : k = name := eq_of_beq hk
      subst hkeq
      rw [List.map_cons, if_pos hk]
      simp [List.lookup, hk]
    | false =>
      have hnk : (name == k) = false := by
        apply beq_eq_false_iff_ne.mpr
        intro h
        exact (beq_eq_false_iff_ne.mp hk) h.symm
      have hany' : rest.any (fun p => p.1 == name) = true := by
        simpa [hk] using hany
      rw [List.map_cons, if_neg (by simp [hk])]
      simp only [List.lookup, hnk]
      exact ih hany'

theorem lookup_append_new (name : String) (fn : CheckFunction)
    (m : List (String × CheckFunction))
    (hany : m.any (fun p => p.1 == name) = false) :
    List.lookup name (m ++ [(name, fn)]) = some fn := by
  induction m with
  | nil => simp [List.lookup]
  | cons p rest ih =>
    obtain ⟨k, v⟩ := p
    cases hk : (k == name) with
    | true => simp [hk] at hany
    | false =>
      have hnk : (name == k) = false := by
        apply beq_eq_false_iff_ne.mpr
        intro h
        exact (beq_eq_false_iff_ne.mp hk) h.symm
      have hany' : rest.any (fun p => p.1 == name) = false := by
        simpa [hk] using hany
      simp only [List.cons_append, List.lookup, hnk]
      exact ih hany'

theorem lookup_mapStore (m : List (String × CheckFunction)) (name : String)
    (fn : CheckFunction) :
    List.lookup name (mapStore m name fn) = some fn := by
  unfold mapStore
  by_cases hany : m.any (fun p => p.1 == name) = true
  · rw [if_pos hany]
    exact lookup_map_replace name fn m hany
  · rw [if_neg hany]
    exact lookup_append_new name fn m (Bool.not_eq_true _ ▸ hany)

theorem mem_mapStore (m : List (String × CheckFunction)) (name : String)
    (fn g : CheckFunction) (hmem : (name, g) ∈ mapStore m name fn) : g = fn := by
  unfold mapStore at hmem
  by_cases hany : m.any (fun p => p.1 == name) = true
  · rw [if_pos hany] at hmem
    obtain ⟨p, hp, heq⟩ := List.mem_map.mp hmem
    cases hk : (p.1 == name) with
    | true =>
      rw [if_pos hk] at heq
      injection heq with h1 h2
      exact h2.symm
    | false =>
      rw [if_neg (by simp [hk])] at heq
      rw [heq] at hk
      simp at hk
  · rw [if_neg hany] at hmem
    rcases List.mem_append.mp hmem with hin | hin
    · exact absurd (List.any_eq_true.mpr ⟨(name, g), hin, by simp⟩) hany
    · simpa using List.mem_singleton.mp hin

theorem enabled_applyOps (ops : List HandlerOp) (h : Handler)
    (he : h.enabled = true) : (applyOps h ops).enabled = true := by
  induction ops generalizing h with
  | nil => exact he
  | cons op ops ih =>
    have hstep : (applyOp h op).enabled = true := by
      cases op <;> simp [applyOp, Handler.RegisterCheck, Handler.Enable, he]
    simpa [applyOps, List.foldl_cons] using ih (applyOp h op) hstep

theorem stopN_of_stopped (n : Nat) (s : WaiterState) (hs : s.stopped = true) :
    stopN n s = .ok s := by
  induction n with
  | zero => rfl
  | succ m ih => simp [stopN, WaiterState.stop, hs, ih]

/-! ## Claim theorems -/

/-- C1: GET /_hc is routed to the health check handler, and ServeHTTP
behaves as claimed: when the gate is disabled the response is 503 with
body exactly "not enabled" and no registered probe is invoked; when
the gate is enabled and every registered probe (including the case of
zero probes) returns nil, the response is 200 with body exactly "ok";
when the gate is enabled and a failing probe is encountered after a
run of passing ones, the response is 503 with body exactly "unhealthy"
and the probes after the first failing one are not invoked. -/
theorem serveHTTP_gate_and_failfast (h : Handler) :
    (("GET", "/_hc", RouteTarget.healthCheckRoute) ∈ routes)
    ∧ (h.enabled = false →
        h.ServeHTTP = writeResponse 503 "not enabled" ∧ h.ServeHTTPTrace.2 = [])
    ∧ (h.enabled = true → (∀ p ∈ h.checks, p.2 () = none) →
        h.ServeHTTP = writeResponse 200 "ok")
    ∧ (h.enabled = true →
        ∀ pre nm g post, h.checks = pre ++ (nm, g) :: post →
        (∀ p ∈ pre, p.2 () = none) → g () ≠ none →
        h.ServeHTTP = writeResponse 503 "unhealthy" ∧
          h.ServeHTTPTrace.2 = pre.map Prod.fst ++ [nm]) := by
  refine ⟨by simp [routes], ?_, ?_, ?_⟩
  · intro hd
    constructor
    · simp [Handler.ServeHTTP, Handler.IsEnabled, hd]
    · simp [Handler.ServeHTTPTrace, Handler.IsEnabled, hd]
  · intro he hall
    have hnone := runAllChecks_of_all_none h.checks hall
    simp [Handler.ServeHTTP, Handler.IsEnabled, he, hnone]
  · intro he pre nm g post hsplit hpre hg
    have htr := runAllChecksTrace_firstFail pre nm g post hpre hg
    obtain ⟨e, hge⟩ := Option.ne_none_iff_exists'.mp hg
    have hrun : runAllChecks h.checks = some e := by
      rw [← runAllChecksTrace_fst, hsplit, htr, hge]
    have htr' : runAllChecksTrace h.checks = (some e, pre.map Prod.fst ++ [nm]) := by
      rw [hsplit, htr, hge]
    constructor
    · simp [Handler.ServeHTTP, Handler.IsEnabled, he, hrun]
    · simp [Handler.ServeHTTPTrace, Handler.IsEnabled, he, htr']

/-- Witness for C1: a concrete enabled handler with a passing check
"a", a failing check "b" and a later check "c": the response is 503
"unhealthy" and only "a" and "b" are invoked. -/
theorem serveHTTP_gate_and_failfast_witness :
    Handler.ServeHTTP
        { serviceName := "svc",
          checks := [("a", fun _ => none), ("b", fun _ => some "boom"),
                     ("c", fun _ => none)],
          enabled := true }
      = writeResponse 503 "unhealthy"
    ∧ (Handler.ServeHTTPTrace
        { serviceName := "svc",
          checks := [("a", fun _ => none), ("b", fun _ => some "boom"),
                     ("c", fun _ => none)],
          enabled := true }).2
      = ["a", "b"] :=
  (serveHTTP_gate_and_failfast _).2.2.2 rfl
    [("a", fun _ => none)] "b" (fun _ => some "boom") [("c", fun _ => none)] rfl
    (by
      intro p hp
      rw [List.mem_singleton] at hp
      subst hp
      rfl)
    (by simp)

/-- C8: the enabled flag starts false, Enable is idempotent (any
number of calls equals one call), and the flag is monotone: no public
Handler operation clears it, so IsEnabled is true in every state
reachable after an Enable. -/
theorem enable_idempotent_monotone :
    (∀ serviceName, (NewHandler serviceName).enabled = false)
    ∧ (∀ h : Handler, h.Enable.Enable = h.Enable)
    ∧ (∀ (h : Handler) (op : HandlerOp), h.enabled = true →
        (applyOp h op).enabled = true)
    ∧ (∀ (h : Handler) (ops : List HandlerOp),
        (applyOps h.Enable ops).IsEnabled = true) := by
  refine ⟨fun _ => rfl, fun h => rfl, ?_, ?_⟩
  · intro h op he
    cases op <;> simp [applyOp, Handler.RegisterCheck, Handler.Enable, he]
  · intro h ops
    exact enabled_applyOps ops h.Enable rfl

/-- Witness for C8: one public operation after Enable on a fresh
handler leaves the flag set. -/
theorem enable_idempotent_monotone_witness :
    (applyOp (Handler.Enable (NewHandler "svc")) HandlerOp.enable).enabled = true :=
  enable_idempotent_monotone.2.2.1 (Handler.Enable (NewHandler "svc"))
    HandlerOp.enable rfl

/-- C9: for any sequence of RegisterCheck calls reusing one name, the
registry maps that name to the probe of the most recent call, the
re-registration silently overwrites (RegisterCheck is total, with no
error return), and no other probe remains registered under that name,
so only the most recent probe can be invoked by a later evaluation. -/
theorem registerCheck_last_write_wins (h : Handler) (name : String)
    (fns : List CheckFunction) (fn : CheckFunction) :
    List.lookup name (registerMany h name (fns ++ [fn])).checks = some fn
    ∧ (∀ g, (name, g) ∈ (registerMany h name (fns ++ [fn])).checks → g = fn) := by
  have hstep : registerMany h name (fns ++ [fn])
      = Handler.RegisterCheck (registerMany h name fns) name fn := by
    simp [registerMany, List.foldl_append]
  constructor
  · rw [hstep]
    exact lookup_mapStore _ name fn
  · intro g hg
    rw [hstep] at hg
    exact mem_mapStore _ name fn g hg

/-- Witness for C9: registering "db" twice on a fresh handler leaves
the registry mapping "db" to the second probe only. -/
theorem registerCheck_last_write_wins_witness :
    List.lookup "db"
        (registerMany (NewHandler "svc") "db"
          [fun _ => some "down", (fun _ => none : CheckFunction)]).checks
      = some (fun _ => none : CheckFunction)
    ∧ (fun _ => none : CheckFunction) = (fun _ => none : CheckFunction) := by
  refine ⟨?_, ?_⟩
  · exact (registerCheck_last_write_wins (NewHandler "svc") "db"
      [fun _ => some "down"] (fun _ => none)).1
  · exact (registerCheck_last_write_wins (NewHandler "svc") "db"
      [fun _ => some "down"] (fun _ => none : CheckFunction)).2
      (fun _ => none : CheckFunction)
      (by
        show ("db", (fun _ => none : CheckFunction))
          ∈ [("db", (fun _ => none : CheckFunction))]
        exact List.mem_singleton.mpr rfl)

/-- C2: on each tick of the polling loop exactly this case order
applies: server no longer running — exit silently; gate enabled —
exit normally; current time strictly after the deadline (loop start
plus the configured timeout) — fatal escalation (panic); otherwise
the loop continues with the next tick. -/
theorem waiter_tick_case_order (startTime timeout : Nat)
    (running enabled : Bool) (now : Nat) (rest : List WaiterEvent) :
    (running = false →
      waitForHealthCheckEnabled startTime timeout
          (WaiterEvent.tick running enabled now :: rest)
        = LoopOutcome.stoppedNotRunning)
    ∧ (running = true → enabled = true →
      waitForHealthCheckEnabled startTime timeout
          (WaiterEvent.tick running enabled now :: rest)
        = LoopOutcome.satisfied)
    ∧ (running = true → enabled = false → startTime + timeout < now →
      waitForHealthCheckEnabled startTime timeout
          (WaiterEvent.tick running enabled now :: rest)
        = LoopOutcome.escalated
            { message := timeoutMsg, attrs := [("timeout", timeout)] } timeoutMsg)
    ∧ (running = true → enabled = false → ¬ startTime + timeout < now →
      waitForHealthCheckEnabled startTime timeout
          (WaiterEvent.tick running enabled now :: rest)
        = waitForHealthCheckEnabled startTime timeout rest) := by
  refine ⟨?_, ?_, ?_, ?_⟩
  · intro hr
    subst hr
    simp [waitForHealthCheckEnabled, waitLoop]
  · intro hr he
    subst hr
    subst he
    simp [waitForHealthCheckEnabled, waitLoop]
  · intro hr he hlate
    subst hr
    subst he
    simp [waitForHealthCheckEnabled, waitLoop, hlate]
  · intro hr he hok
    subst hr
    subst he
    simp [waitForHealthCheckEnabled, waitLoop, hok]

/-- Witness for C2: a tick with the server stopped exits silently. -/
theorem waiter_tick_case_order_witness :
    waitForHealthCheckEnabled 0 10 [WaiterEvent.tick false false 1]
      = LoopOutcome.stoppedNotRunning :=
  (waiter_tick_case_order 0 10 false false 1 []).1 rfl

/-- C5: when a tick arrives after the deadline with the gate still
not enabled (and the server running), the watcher escalates fatally:
the error record logged at termination carries the message and the
"timeout" attribute holding the configured timeout value, and the
panic carries the descriptive message. -/
theorem waiter_escalation_names_timeout (startTime timeout now : Nat)
    (rest : List WaiterEvent) (hlate : startTime + timeout < now) :
    ∃ errorLog escalationMsg,
      waitForHealthCheckEnabled startTime timeout
          (WaiterEvent.tick true false now :: rest)
        = LoopOutcome.escalated errorLog escalationMsg
      ∧ ("timeout", timeout) ∈ errorLog.attrs
      ∧ errorLog.message = timeoutMsg
      ∧ escalationMsg = timeoutMsg := by
  refine ⟨{ message := timeoutMsg, attrs := [("timeout", timeout)] },
    timeoutMsg, ?_, ?_, rfl, rfl⟩
  · simp [waitForHealthCheckEnabled, waitLoop, hlate]
  · exact List.mem_singleton.mpr rfl

/-- Witness for C5: timeout 5 started at 0, tick at time 6. -/
theorem waiter_escalation_names_timeout_witness :
    ∃ errorLog escalationMsg,
      waitForHealthCheckEnabled 0 5 [WaiterEvent.tick true false 6]
        = LoopOutcome.escalated errorLog escalationMsg
      ∧ ("timeout", 5) ∈ errorLog.attrs
      ∧ errorLog.message = timeoutMsg
      ∧ escalationMsg = timeoutMsg :=
  waiter_escalation_names_timeout 0 5 6 [] (by decide)

/-- C7: stop may be called any number of times without a panic: the
first call sets the stopped flag and closes the stop channel once,
every later call observes the flag and returns without closing again,
so any sequence of n at least 1 calls ends in the stopped state with
exactly one close and never reaches the double-close panic. -/
theorem waiter_stop_idempotent_single_close :
    (WaiterState.stop newWaiterState
      = .ok { stopped := true, chanClosed := true, closeCount := 1 })
    ∧ (∀ s : WaiterState, s.stopped = true → s.stop = .ok s)
    ∧ (∀ n : Nat, 1 ≤ n →
        stopN n newWaiterState
          = .ok { stopped := true, chanClosed := true, closeCount := 1 }) := by
  refine ⟨rfl, ?_, ?_⟩
  · intro s hs
    simp [WaiterState.stop, hs]
  · intro n hn
    obtain ⟨m, rfl⟩ := Nat.exists_eq_add_of_le hn
    have h1 : stopN (1 + m) newWaiterState
        = stopN m { stopped := true, chanClosed := true, closeCount := 1 } := by
      simp [Nat.add_comm 1 m]
      rfl
    rw [h1, stopN_of_stopped m _ rfl]

/-- Witness for C7: three consecutive stop calls succeed with a
single close. -/
theorem waiter_stop_idempotent_single_close_witness :
    stopN 3 newWaiterState
      = .ok { stopped := true, chanClosed := true, closeCount := 1 } :=
  waiter_stop_idempotent_single_close.2.2 3 (by decide)

/-- C6: Start while running is a no-op returning nil with no rebind
and no second watcher; Stop while not running is a no-op returning
nil; hence double Start and double Stop are never errors. -/
theorem telemetry_start_stop_idempotent (s : TelemetryServer)
    (r r' : Option Err) :
    (s.running = true → s.StartWithAddress = (s, [], none))
    ∧ (s.running = false → s.Stop r = (s, [], none))
    ∧ TelemetryServer.StartWithAddress s.StartWithAddress.1
        = (s.StartWithAddress.1, [], none)
    ∧ TelemetryServer.Stop (s.Stop r).1 r'
        = ((s.Stop r).1, [], none) := by
  obtain ⟨b⟩ := s
  refine ⟨?_, ?_, ?_, ?_⟩
  · intro hb
    simp only at hb
    subst hb
    rfl
  · intro hb
    simp only at hb
    subst hb
    cases r <;> rfl
  · cases b <;> rfl
  · cases b <;> cases r <;> rfl

/-- Witness for C6: double Start from running and double Stop from
stopped are both observable as no-ops on concrete states. -/
theorem telemetry_start_stop_idempotent_witness :
    TelemetryServer.StartWithAddress { running := true }
      = ({ running := true }, [], none)
    ∧ TelemetryServer.Stop { running := false } none
      = ({ running := false }, [], none) :=
  ⟨(telemetry_start_stop_idempotent { running := true } none none).1 rfl,
   (telemetry_start_stop_idempotent { running := false } none none).2.1 rfl⟩

/-- C4: Stop invoked while running performs, in order: stop the
health-check watcher, shut down the HTTP listener, and (when the
shutdown succeeded, i.e. in every Stop that runs to completion)
release the metrics backend via Cleanup, which runs its installed
cleanup functions (exporter shutdown, then meter provider shutdown);
any shutdown error is returned to the caller. -/
theorem telemetry_stop_order_and_cleanup (s : TelemetryServer)
    (hrun : s.running = true) :
    (s.Stop none
      = ({ running := false },
         [ServerEffect.stopWatcher, ServerEffect.shutdownListener,
          ServerEffect.cleanupMetrics], none))
    ∧ (∀ e, s.Stop (some e)
      = ({ running := false },
         [ServerEffect.stopWatcher, ServerEffect.shutdownListener], some e))
    ∧ (∀ r, (s.Stop r).2.2 = none →
        ServerEffect.cleanupMetrics ∈ (s.Stop r).2.1)
    ∧ ProviderCleanup
      = [MetricsCleanupStep.exporterShutdown,
         MetricsCleanupStep.meterProviderShutdown] := by
  obtain ⟨b⟩ := s
  simp only at hrun
  subst hrun
  refine ⟨rfl, fun e => rfl, ?_, rfl⟩
  intro r hr
  cases r with
  | none => simp [TelemetryServer.Stop]
  | some e => simp [TelemetryServer.Stop] at hr

/-- Witness for C4: Stop on a running server with a successful
shutdown performs watcher stop, listener shutdown, then metrics
cleanup, and returns nil. -/
theorem telemetry_stop_order_and_cleanup_witness :
    TelemetryServer.Stop { running := true } none
      = ({ running := false },
         [ServerEffect.stopWatcher, ServerEffect.shutdownListener,
          ServerEffect.cleanupMetrics], none) :=
  (telemetry_stop_order_and_cleanup { running := true } rfl).1

/-- C10: GetRunningPort is a total function of the actual bound
address: 0 when the address is empty, when net.SplitHostPort rejects
it, or when strconv.Atoi rejects the port portion; the parsed numeric
port otherwise. -/
theorem getRunningPort_total_cases (addr : String) :
    (addr = "" → GetRunningPort addr = 0)
    ∧ (∀ e, SplitHostPort addr = .error e → GetRunningPort addr = 0)
    ∧ (∀ hp port e, SplitHostPort addr = .ok (hp, port) →
        Atoi port = .error e → GetRunningPort addr = 0)
    ∧ (∀ hp port n, SplitHostPort addr = .ok (hp, port) →
        Atoi port = .ok n → GetRunningPort addr = n) := by
  by_cases ha : addr = ""
  · subst ha
    have hsp0 : SplitHostPort ""
        = (.error "missing port in address" : Except Err (String × String)) := rfl
    refine ⟨fun _ => rfl, fun e _ => rfl, ?_, ?_⟩
    · intro hp port e hsp
      rw [hsp0] at hsp
      exact Except.noConfusion hsp
    · intro hp port n hsp
      rw [hsp0] at hsp
      exact Except.noConfusion hsp
  · refine ⟨fun h => absurd h ha, ?_, ?_, ?_⟩
    · intro e hsp
      simp [GetRunningPort, ha, hsp]
    · intro hp port e hsp hat
      simp [GetRunningPort, ha, hsp, hat]
    · intro hp port n hsp hat
      simp [GetRunningPort, ha, hsp, hat]

/-- Witness for C10: a well-formed bound address parses to its port. -/
theorem getRunningPort_total_cases_witness :
    GetRunningPort "127.0.0.1:8080" = 8080 :=
  (getRunningPort_total_cases "127.0.0.1:8080").2.2.2 "127.0.0.1" "8080" 8080
    rfl rfl

/-- Counterexample to C3: the listener's Start call does block for the
lifetime of the server. In the recorded execution of
http.Server.Start on a successful bind, Start's return comes only
after the serve loop has exited, so the claimed contract
"Start returns once the socket is bound and the serve loop is
launched" (returnsBeforeServeExit) is false on a concrete run. -/
theorem listener_start_blocking_counterexample :
    returnsBeforeServeExit
        (HTTPServer.StartRun NewServer (some "127.0.0.1:43721")).2 = false := by
  rfl

/-- C3 amended: ActualAddress is empty before Start; after a
successful bind of an OS-assigned address the recorded bound address
carries the nonzero, non-wildcard OS port (here: the address the OS
returned parses to a port p, and GetRunningPort recovers exactly p);
the listener's own Start blocks until the serve loop exits (the serve
loop exit strictly precedes Start's return in the execution trace);
the call that does not block for the server's lifetime is
TelemetryServer.StartWithAddress, which launches the serve goroutine
and returns nil immediately. -/
theorem bound_address_amended (resolved hp port : String) (p : Int)
    (hsplit : SplitHostPort resolved = .ok (hp, port))
    (hport : Atoi port = .ok p) (hpz : p ≠ 0) :
    NewServer.ActualAddress = ""
    ∧ (HTTPServer.StartRun NewServer (some resolved)).1.ActualAddress = resolved
    ∧ (GetRunningPortOf (HTTPServer.StartRun NewServer (some resolved)).1 = p
        ∧ p ≠ 0)
    ∧ (∃ i j, (HTTPServer.StartRun NewServer (some resolved)).2.get? i
          = some ServeEvent.serveExit
        ∧ (HTTPServer.StartRun NewServer (some resolved)).2.get? j
          = some ServeEvent.startReturned
        ∧ i < j)
    ∧ (∀ s : TelemetryServer, s.running = false →
        s.StartWithAddress
          = ({ running := true },
             [ServerEffect.launchWatcher, ServerEffect.goServeStart], none)) := by
  have hne : resolved ≠ "" := by
    intro h
    subst h
    have hsp0 : SplitHostPort ""
        = (.error "missing port in address" : Except Err (String × String)) := rfl
    rw [hsp0] at hsplit
    exact Except.noConfusion hsplit
  refine ⟨rfl, rfl, ⟨?_, hpz⟩, ⟨2, 3, rfl, rfl, by decide⟩, ?_⟩
  · simp [GetRunningPortOf, GetRunningPort, HTTPServer.StartRun,
      HTTPServer.ActualAddress, hne, hsplit, hport]
  · intro s hs
    obtain ⟨b⟩ := s
    simp only at hs
    subst hs
    rfl

/-- Witness for C3 amended: a concrete OS-resolved address. -/
theorem bound_address_amended_witness :
    GetRunningPortOf (HTTPServer.StartRun NewServer (some "127.0.0.1:43721")).1
      = 43721 :=
  (bound_address_amended "127.0.0.1:43721" "127.0.0.1" "43721" 43721
    rfl rfl (by decide)).2.2.1.1

end Doakes
